import Mathlib

/-!
Shallow embedding of the event-capture pipeline of the kitrakrev/event-capture
extension.  The two recorder variants (the large recorder script, called v1
below, and the second recorder script, called v2 below) are translated
function by function: element classification, stable-id computation, the
event filter, the record constructors, the dispatch wiring, and the
message-sending bridge.  Machine arithmetic follows the ECMAScript number
semantics explicitly (32-bit folds written with explicit mod), DOM nodes are
modelled as a data record plus an ancestor chain, and fallible code returns
an explicit result that separates a clean return from a thrown error.
-/

namespace EventCapture

/-- JavaScript string.toLowerCase restricted to the ASCII range, which is the
only range the recorder code relies on. -/
def jsToLower (s : String) : String := String.mk (s.data.map Char.toLower)

/-- Drop leading whitespace of a character list. -/
def dropLeadingWs : List Char → List Char
  | [] => []
  | c :: rest => if c.isWhitespace then dropLeadingWs rest else c :: rest

/-- JavaScript string.trim: strip leading and trailing whitespace. -/
def jsTrim (s : String) : String :=
  String.mk ((dropLeadingWs (dropLeadingWs s.data).reverse).reverse)

/-- JavaScript s.substring(0, n): the first n characters. -/
def jsSubstring0 (s : String) (n : Nat) : String := String.mk (s.data.take n)

/-- Worker for the whitespace split: current run of non-whitespace
characters in reverse, finished pieces in reverse order. -/
def splitClassesGo : List Char → List Char → List String → List String
  | [], cur, out =>
      if cur.isEmpty then out else String.mk cur.reverse :: out
  | c :: rest, cur, out =>
      if c.isWhitespace then
        splitClassesGo rest []
          (if cur.isEmpty then out else String.mk cur.reverse :: out)
      else splitClassesGo rest (c :: cur) out

/-- Split on whitespace runs and drop empty pieces, the meaning of
s.split(regex on whitespace).filter(c does not vanish) in the source. -/
def splitClasses (s : String) : List String :=
  (splitClassesGo s.data [] []).reverse

/-- array.join(sep). -/
def joinSep (sep : String) : List String → String
  | [] => ""
  | [x] => x
  | x :: rest => x ++ sep ++ joinSep sep rest

/-- One DOM element as the recorder reads it: tag name (absent models a
missing tagName property), the attribute map, whether an inline onclick
handler is attached, the value / textContent / className properties (absent
models a non-string or undefined property), and the sibling index, which
models the source expression indexOf over the parent children array
(a detached element yields -1 there, hence the integer type). -/
structure ElemData where
  tagName : Option String
  attrs : List (String × String)
  onclick : Bool
  value : Option String
  textContent : Option String
  className : Option String
  siblingIndex : Int
  deriving Repr, DecidableEq

/-- An element together with its chain of ancestor elements (nearest first),
which is what the closest calls of the second variant walk. -/
structure Elem where
  data : ElemData
  ancestors : List ElemData
  deriving Repr, DecidableEq

/-- A DOM node as seen through event.target: an element, a non-element node
such as a text node (nodeType 3) or the document (nodeType 9). -/
inductive DomNode where
  | element (e : Elem)
  | textNode
  | documentNode
  deriving Repr, DecidableEq

/-- element.getAttribute: the attribute value, or none for the null the DOM
returns when the attribute is absent. -/
def getAttr (d : ElemData) (name : String) : Option String :=
  (d.attrs.find? (fun p => p.1 == name)).map (fun p => p.2)

/-- element.hasAttribute. -/
def hasAttr (d : ElemData) (name : String) : Bool :=
  (d.attrs.find? (fun p => p.1 == name)).isSome

/-- nodeType of a node (1 for elements, 3 for text, 9 for the document). -/
def DomNode.nodeType : DomNode → Nat
  | .element _ => 1
  | .textNode => 3
  | .documentNode => 9

/-- element.value read with a default, as in the source expression
element.value with a fallback to the empty string. -/
def DomNode.valueOrEmpty : DomNode → String
  | .element e => e.data.value.getD ""
  | _ => ""

def interactiveTags : List String :=
  ["button", "input", "select", "textarea", "a"]

def interactiveRoles : List String :=
  ["button", "link", "checkbox", "radio", "textbox", "combobox",
   "listbox", "menuitem"]

/-- isInteractiveElement of the first recorder variant: guard non-element
nodes to false, then test the interactive tag list, the interactive role
list (behind the truthiness test the source applies to the role value), an
attached onclick handler, and the exact string comparison of tabindex
against the string 0. -/
def isInteractiveElement (node : Option DomNode) : Bool :=
  match node with
  | some (DomNode.element e) =>
      let tagName := match e.data.tagName with
        | some t => jsToLower t
        | none => ""
      let role := getAttr e.data "role"
      let hasOnClick := e.data.onclick
      let tabIndex := getAttr e.data "tabindex"
      (interactiveTags.contains tagName
        || (match role with
            | some r => r ≠ "" && interactiveRoles.contains r
            | none => false)
        || hasOnClick
        || tabIndex == some "0")
  | _ => false

/-- Tag name of an element in lower case, empty when absent. -/
def elemTagLower (d : ElemData) : String :=
  match d.tagName with
  | some t => jsToLower t
  | none => ""

/-- element.closest(sel) for the selectors the second variant uses: walk the
element itself and then its ancestor chain, returning whether any of them
matches the predicate. -/
def closestMatches (e : Elem) (p : ElemData → Bool) : Bool :=
  (e.data :: e.ancestors).any p

def interactiveTagsV2 : List String := ["a", "input", "select", "textarea"]

def interactiveRolesV2 : List String :=
  ["link", "checkbox", "radio", "textbox", "combobox", "listbox", "menuitem"]

/-- isInteractiveElement of the second recorder variant.  Only null is
guarded; on any other node the code immediately reads
element.tagName.toLowerCase(), so a non-element target (whose tagName is
undefined) makes the call throw a TypeError, modelled as an error result.
A button-likeness test (tag, role, type attribute, or a button-like
ancestor through closest) is combined with the interactive tag and role
lists, the onclick handler, and the tabindex comparison. -/
def isInteractiveElementV2 (node : Option DomNode) : Except String Bool :=
  match node with
  | none => .ok false
  | some n =>
      match n with
      | .textNode => .error "TypeError: tagName is undefined"
      | .documentNode => .error "TypeError: tagName is undefined"
      | .element e =>
          match e.data.tagName with
          | none => .error "TypeError: tagName is undefined"
          | some t =>
              let tagName := jsToLower t
              let role := getAttr e.data "role"
              let ty := getAttr e.data "type"
              let isButton :=
                tagName == "button"
                || role == some "button"
                || ty == some "submit"
                || ty == some "button"
                || closestMatches e (fun d => elemTagLower d == "button")
                || closestMatches e (fun d => getAttr d "role" == some "button")
                || closestMatches e (fun d =>
                      elemTagLower d == "input" && getAttr d "type" == some "submit")
                || closestMatches e (fun d =>
                      elemTagLower d == "input" && getAttr d "type" == some "button")
              .ok (isButton
                || interactiveTagsV2.contains tagName
                || (match role with
                    | some r => interactiveRolesV2.contains r
                    | none => false)
                || e.data.onclick
                || getAttr e.data "tabindex" == some "0")

/-- ECMAScript ToUint32 of an exact integer (the meaning of the unsigned
shift by zero the hash applies at the end). -/
def jsToUint32 (n : Int) : Nat := (n % 4294967296).toNat

/-- ECMAScript ToInt32 of an exact integer: fold into the signed 32-bit
range. -/
def jsToInt32 (n : Int) : Int :=
  let m := n % 4294967296
  if m < 2147483648 then m else m - 4294967296

/-- The expression hash shifted left by five in the source: both operands
pass through ToInt32 and the result is again a signed 32-bit value. -/
def jsShl5 (h : Int) : Int := jsToInt32 (jsToInt32 h * 32)

/-- One step of the rolling hash: the shifted value plus the running value
plus the character code.  The additions are exact double additions in the
source; they stay exact integers for every string the recorder can build,
so the model uses exact integers. -/
def hashStep (h : Int) (c : Char) : Int := jsShl5 h + h + (c.toNat : Int)

/-- Digit characters of number.toString(36): 0-9 then a-z. -/
def base36Digit (n : Nat) : Char :=
  if n < 10 then Char.ofNat (48 + n) else Char.ofNat (87 + n)

/-- Base-36 digit emission.  The fuel argument only bounds the recursion
depth structurally; eight digits cover every unsigned 32-bit value, and the
callers never pass larger numbers. -/
def toBase36Go : Nat → Nat → List Char → List Char
  | 0, _, acc => acc
  | fuel + 1, n, acc =>
      let acc := base36Digit (n % 36) :: acc
      if n / 36 == 0 then acc else toBase36Go fuel (n / 36) acc

/-- number.toString(36) for an unsigned 32-bit value. -/
def toBase36 (n : Nat) : String := String.mk (toBase36Go 8 n [])

/-- hashString of both recorder variants: djb2-style rolling hash seeded
with 5381, folded to unsigned 32-bit, base-36 encoded, first six
characters. -/
def hashString (s : String) : String :=
  let h : Int := s.data.foldl hashStep 5381
  jsSubstring0 (toBase36 (jsToUint32 h)) 6

/-- Whether a character survives the normalization character class, lower
case letters and digits. -/
def isLowerAlnum (c : Char) : Bool :=
  (97 ≤ c.toNat && c.toNat ≤ 122) || (48 ≤ c.toNat && c.toNat ≤ 57)

/-- The attribute-branch normalization of getStableBID: lower-case the
value, then replace every character outside the lower-alphanumeric class
with a dash.  The replacement is per character (the source regex carries no
quantifier), so runs of excluded characters give runs of dashes. -/
def normalizeAttrValue (v : String) : String :=
  String.mk ((jsToLower v).data.map (fun c => if isLowerAlnum c then c else '-'))

/-- The final normalization of the hash branch of getStableBID: lower-case,
then replace every character outside lower-alphanumeric-or-dash with a
dash. -/
def normalizeBidTail (s : String) : String :=
  String.mk ((jsToLower s).data.map
    (fun c => if isLowerAlnum c || c == '-' then c else '-'))

/-- The fixed priority list of attribute and prefix pairs getStableBID
scans. -/
def bidAttributePriority : List (String × String) :=
  [("data-testid", "test-"),
   ("aria-label", "aria-"),
   ("id", "id-"),
   ("name", "name-"),
   ("placeholder", "place-"),
   ("alt", "alt-"),
   ("title", "title-"),
   ("role", "role-")]

/-- The first priority attribute carrying a truthy (non-empty) value,
together with its prefix. -/
def firstBidAttr (d : ElemData) : Option (String × String) :=
  bidAttributePriority.findSome? (fun ap =>
    match getAttr d ap.1 with
    | some v => if v ≠ "" then some (ap.2, v) else none
    | none => none)

/-- getStableBID of the first recorder variant: non-element nodes yield the
empty string; otherwise the first truthy priority attribute yields prefix
plus normalized value, and the fallback hashes the semantic string of tag,
dash-joined class list, first thirty characters of trimmed text, and
sibling index. -/
def getStableBID (node : Option DomNode) : String :=
  match node with
  | some (DomNode.element e) =>
      (match firstBidAttr e.data with
       | some pv => pv.1 ++ normalizeAttrValue pv.2
       | none =>
          let tag := match e.data.tagName with
            | some t => if t ≠ "" then jsToLower t else "unknown"
            | none => "unknown"
          let classes := match e.data.className with
            | some c =>
                if c ≠ "" then joinSep "-" (splitClasses c) else ""
            | none => ""
          let text := match e.data.textContent with
            | some tc => if tc ≠ "" then jsSubstring0 (jsTrim tc) 30 else ""
            | none => ""
          let index := e.data.siblingIndex
          let semanticId :=
            tag ++ "-" ++ classes ++ "-" ++ text ++ "-" ++ toString index
          let hash := hashString semanticId
          normalizeBidTail
            (tag ++ (if classes ≠ "" then "-" ++ classes else "") ++ "-" ++ hash))
  | _ => ""

set_option maxRecDepth 8192

/-- The module-scope click memo: time and target of the previous click-class
occurrence and the running click counter. -/
structure ClickState where
  lastClickTime : Int
  lastClickTarget : Option DomNode
  clickCount : Nat
  deriving Repr, DecidableEq

/-- The module-scope last-event memo the filter mutates. -/
structure LastEventData where
  type : Option String
  target : Option DomNode
  value : Option String
  timestamp : Int
  lastInputValue : Option String
  deriving Repr, DecidableEq

/-- Both memos together, threaded explicitly instead of closed-over module
variables. -/
structure FilterState where
  clickState : ClickState
  lastEventData : LastEventData
  deriving Repr, DecidableEq

def initClickState : ClickState :=
  { lastClickTime := 0, lastClickTarget := none, clickCount := 0 }

def initLastEventData : LastEventData :=
  { type := none, target := none, value := none, timestamp := 0,
    lastInputValue := none }

def initFilterState : FilterState :=
  { clickState := initClickState, lastEventData := initLastEventData }

/-- element.hasAttribute title as the hover rule reads it.  The recorder
only reaches this read on element targets; on other nodes the model returns
false. -/
def nodeHasTitleAttr : DomNode → Bool
  | .element e => hasAttr e.data "title"
  | _ => false

/-- The part of shouldIgnoreEvent after the click-class block: the
unchanged-input rule, the scroll threshold, the hover rule, the 300
millisecond duplicate rule, and the final memo update. -/
def shouldIgnoreRest (st : FilterState) (element : DomNode)
    (currentValue : String) (deltaY : Option Int) (ty : String)
    (currentTime : Int) : Bool × FilterState :=
  if ty == "input" && some currentValue == st.lastEventData.lastInputValue then
    (true, st)
  else
    let st :=
      if ty == "input" then
        { st with lastEventData :=
            { st.lastEventData with lastInputValue := some currentValue } }
      else st
    -- a missing deltaY gives NaN under Math.abs, and NaN compares false
    if ty == "scroll"
        && (match deltaY with
            | some d => decide (d.natAbs < 50)
            | none => false) then
      (true, st)
    else if (ty == "mouseover" || ty == "mouseout")
        && (!isInteractiveElement (some element)
            && !nodeHasTitleAttr element) then
      (true, st)
    else if st.lastEventData.type == some ty
        && st.lastEventData.target == some element
        && currentTime - st.lastEventData.timestamp < 300 then
      (true, st)
    else
      (false,
        { st with lastEventData :=
            { type := some ty, target := some element,
              value := some currentValue, timestamp := currentTime,
              lastInputValue := st.lastEventData.lastInputValue } })

/-- shouldIgnoreEvent of the first recorder variant (the second variant
carries the same function body).  A click-class occurrence within 25
milliseconds of the previous click on the same target returns true before
anything else is consulted; otherwise the click memo is updated, an
interactive target returns false immediately, and every other case falls
through to the remaining rules.  The boolean result is paired with the
updated memo state. -/
def shouldIgnoreEvent (st : FilterState) (element : DomNode)
    (deltaY : Option Int) (ty : String) (currentTime : Int) :
    Bool × FilterState :=
  let currentValue := element.valueOrEmpty
  if ty == "click" || ty == "mouseup" then
    if currentTime - st.clickState.lastClickTime < 25
        && st.clickState.lastClickTarget == some element then
      (true, st)
    else
      let st' := { st with clickState :=
          { lastClickTime := currentTime, lastClickTarget := some element,
            clickCount := st.clickState.clickCount + 1 } }
      if isInteractiveElement (some element) then (false, st')
      else shouldIgnoreRest st' element currentValue deltaY ty currentTime
  else shouldIgnoreRest st element currentValue deltaY ty currentTime

/-- A timestamp value as stored in a record: recordEvent stores the numeric
epoch-millisecond clock reading, while the navigation and page-load
constructors store the ISO string the formatTimestamp helper produces. -/
inductive TimeVal where
  | num (n : Int)
  | str (s : String)
  deriving Repr, DecidableEq

/-- Two-digit zero padding. -/
def pad2 (n : Nat) : String :=
  if n < 10 then "0" ++ toString n else toString n

/-- Three-digit zero padding. -/
def pad3 (n : Nat) : String :=
  if n < 10 then "00" ++ toString n
  else if n < 100 then "0" ++ toString n
  else toString n

/-- Civil date from a count of days since 1970-01-01 (proleptic Gregorian,
the computation behind Date toISOString). -/
def civilFromDays (z : Nat) : Nat × Nat × Nat :=
  let zs := z + 719468
  let era := zs / 146097
  let doe := zs % 146097
  let yoe := (doe - doe / 1460 + doe / 36524 - doe / 146096) / 365
  let y := yoe + era * 400
  let doy := doe - (365 * yoe + yoe / 4 - yoe / 100)
  let mp := (5 * doy + 2) / 153
  let d := doy - (153 * mp + 2) / 5 + 1
  let m := if mp < 10 then mp + 3 else mp - 9
  (if m ≤ 2 then y + 1 else y, m, d)

/-- new Date(ms).toISOString() for a nonnegative epoch-millisecond reading,
the range Date.now() delivers. -/
def isoOfNat (ms : Nat) : String :=
  let days := ms / 86400000
  let msOfDay := ms % 86400000
  let hh := msOfDay / 3600000
  let mi := (msOfDay % 3600000) / 60000
  let ss := (msOfDay % 60000) / 1000
  let mmm := ms % 1000
  let ymd := civilFromDays days
  toString ymd.1 ++ "-" ++ pad2 ymd.2.1 ++ "-" ++ pad2 ymd.2.2
    ++ "T" ++ pad2 hh ++ ":" ++ pad2 mi ++ ":" ++ pad2 ss
    ++ "." ++ pad3 mmm ++ "Z"

/-- formatTimestamp of both recorder variants: new Date(t).toISOString().
The model covers the nonnegative clock readings Date.now() produces. -/
def formatTimestamp (t : Int) : String := isoOfNat t.toNat

/-- element.id, the reflected id attribute with the empty string default. -/
def elemId (d : ElemData) : String := (getAttr d "id").getD ""

/-- The target descriptor recordEvent of the first variant builds.  The
source additionally computes xpath, cssPath, a11y, the attribute map and
the bounding box from the same target; no claim depends on them, so they
are not carried here. -/
structure TargetInfo where
  tag : Option String
  id : String
  className : Option String
  text : Option String
  value : Option String
  isInteractive : Bool
  bid : String
  deriving Repr, DecidableEq

/-- The target descriptor the second variant builds: same reads, with the
screenshot field of its target object. -/
structure TargetInfoV2 where
  tag : Option String
  id : String
  className : Option String
  text : Option String
  value : Option String
  isInteractive : Bool
  bid : String
  screenshot : Option String
  deriving Repr, DecidableEq

/-- One record in the in-memory event buffer: a normalized DOM event from
either recorder variant, or a navigation record, or the page-load record
the second variant pushes. -/
inductive EventRecord where
  | dom (ty : String) (timestamp : TimeVal) (url : String) (target : TargetInfo)
  | dom2 (ty : String) (timestamp : TimeVal) (url : String)
      (target : TargetInfoV2)
  | nav (ty : String) (timestamp : TimeVal) (fromUrl toUrl title referrer : String)
      (fromUserInput : Bool)
  | pageLoad (timestamp : TimeVal) (url title : String)
  deriving Repr, DecidableEq

/-- Timestamp field of a record. -/
def EventRecord.timestamp : EventRecord → TimeVal
  | .dom _ ts _ _ => ts
  | .dom2 _ ts _ _ => ts
  | .nav _ ts _ _ _ _ _ => ts
  | .pageLoad ts _ _ => ts

/-- Whether a timestamp value is a numeric epoch-millisecond reading. -/
def TimeVal.isNum : TimeVal → Bool
  | .num _ => true
  | .str _ => false

/-- A raw platform occurrence as handed to a listener: the event type
string, the target, the wheel delta when the platform supplies one, and
the clock reading at which the listener runs. -/
structure Occurrence where
  ty : String
  target : Option DomNode
  deltaY : Option Int
  time : Int
  deriving Repr, DecidableEq

/-- Session state of the first recorder variant that the record
constructors touch: the recording flag, the buffer, and the module-scope
memos. -/
structure SessionV1 where
  isRecording : Bool
  events : List EventRecord
  filter : FilterState
  deriving Repr, DecidableEq

def initSessionV1 : SessionV1 :=
  { isRecording := false, events := [], filter := initFilterState }

/-- The target descriptor build of recordEvent in the first variant. -/
def mkTargetInfoV1 (e : Elem) : TargetInfo :=
  { tag := e.data.tagName,
    id := elemId e.data,
    className := e.data.className,
    text := e.data.textContent,
    value := e.data.value,
    isInteractive := isInteractiveElement (some (DomNode.element e)),
    bid := getStableBID (some (DomNode.element e)) }

/-- recordEvent of the first recorder variant: nothing happens unless the
session records; an occurrence without a valid element target is discarded
by the explicit guard; otherwise the normalized record (numeric
epoch-millisecond timestamp) is appended to the buffer.  The function also
fires safeSendMessage toward the background store, which never touches the
buffer, so the model returns only the session. -/
def recordEventV1 (st : SessionV1) (occ : Occurrence) (now : Int)
    (pageUrl : String) : SessionV1 :=
  if !st.isRecording then st
  else
    match occ.target with
    | some (DomNode.element e) =>
        let record := EventRecord.dom occ.ty (TimeVal.num now) pageUrl
          (mkTargetInfoV1 e)
        { st with events := st.events ++ [record] }
    | _ => st

/-- recordNavigationEvent of the first recorder variant: when recording,
push a navigation record whose timestamp is the formatTimestamp ISO string,
then call saveEvents.  The first variant never defines saveEvents, so the
call raises a ReferenceError after the push; the navigation-state updates
and the click-count reset behind it are unreachable there.  The error is
returned beside the updated session. -/
def recordNavigationEventV1 (st : SessionV1)
    (fromUrl toUrl title referrer : String) (now : Int) :
    SessionV1 × Option String :=
  if !st.isRecording then (st, none)
  else
    let record := EventRecord.nav "navigation"
      (TimeVal.str (formatTimestamp now)) fromUrl toUrl title referrer
      (st.filter.clickState.clickCount > 0)
    ({ st with events := st.events ++ [record] },
      some "ReferenceError: saveEvents is not defined")

/-- The event types for which a plain document-level recordEvent listener
is attached in the first variant: the module-scope registrations (click,
mousedown, mouseup, keydown, input, change) plus the initializeRecording
registrations that route straight to recordEvent.  scroll is absent: it
only reaches recordEvent through the 100 millisecond debounce.  input and
change appear here because the module-scope registration of recordEvent for
them survives initializeRecording (it removes only the debounced pair), so
those occurrences hit recordEvent directly in addition to the debounced
handler. -/
def rawRecordTypes : List String :=
  ["click", "mousedown", "mouseup", "keydown", "input", "change",
   "mouseover", "mouseout", "keyup", "keypress", "focus", "blur",
   "submit", "touchstart", "touchend", "touchmove"]

/-- The immediate (non-debounced) dispatch of one occurrence in the first
variant: listeners call recordEvent synchronously, reading the clock at the
occurrence time.  No listener consults shouldIgnoreEvent: the filter
function is defined in both variants but never called. -/
def dispatchImmediateV1 (st : SessionV1) (occ : Occurrence)
    (pageUrl : String) : SessionV1 :=
  if rawRecordTypes.contains occ.ty then recordEventV1 st occ occ.time pageUrl
  else st

/-- Immediate dispatch of a whole trace in occurrence order. -/
def runImmediateV1 (st : SessionV1) (pageUrl : String)
    (occs : List Occurrence) : SessionV1 :=
  occs.foldl (fun s o => dispatchImmediateV1 s o pageUrl) st

/-- The occurrences of a burst whose debounce timer fires: each occurrence
resets the shared timer, so an occurrence survives only when it is the last
one or the next occurrence arrives no sooner than the wait. -/
def debounceKept (wait : Int) : List Occurrence → List Occurrence
  | [] => []
  | [o] => [o]
  | o :: o2 :: rest =>
      if o2.time - o.time < wait then debounceKept wait (o2 :: rest)
      else o :: debounceKept wait (o2 :: rest)

/-- The debounced scroll handler of the first variant applied to a burst of
scroll occurrences: the surviving occurrences reach recordEvent when their
100 millisecond timer fires. -/
def runScrollV1 (st : SessionV1) (pageUrl : String)
    (occs : List Occurrence) : SessionV1 :=
  (debounceKept 100 occs).foldl
    (fun s o => recordEventV1 s o (o.time + 100) pageUrl) st

/-- The debounced input handler body of the first variant firing for an
occurrence: record only when the target value differs (strict comparison,
with undefined and null distinct) from the last recorded input value. -/
def debouncedRecordInputFire (st : SessionV1) (occ : Occurrence) (now : Int)
    (pageUrl : String) : SessionV1 :=
  let targetValue : Option String :=
    match occ.target with
    | some (DomNode.element e) => e.data.value
    | _ => none
  let unchanged :=
    match targetValue, st.filter.lastEventData.lastInputValue with
    | some v, some l => v == l
    | _, _ => false
  if unchanged then st else recordEventV1 st occ now pageUrl

/-- A message argument as safeSendMessage classifies it: a falsy value, a
truthy non-object, or an object payload carried here by a label. -/
inductive JsMsg where
  | nullish
  | primitiveTruthy
  | obj (label : String)
  deriving Repr, DecidableEq

/-- One entry of the local backup log: the spread message plus the stored
timestamp and the storedLocally flag. -/
structure BackupEntry where
  payload : String
  timestamp : Int
  storedLocally : Bool
  deriving Repr, DecidableEq

/-- How the messaging channel behaves for one send: the callback runs (with
or without a runtime lastError and with an optional response), the callback
never runs, or sendMessage itself throws synchronously. -/
inductive SendBehavior where
  | callsBack (lastError : Bool) (response : Option String)
  | neverCallsBack
  | throwsSync
  deriving Repr, DecidableEq

/-- The environment one safeSendMessage call sees. -/
structure BridgeEnv where
  runtimeAvailable : Bool
  localStorageAvailable : Bool
  localStorageThrows : Bool
  send : SendBehavior
  deriving Repr, DecidableEq

/-- Which internal path produced the resolution of a safeSendMessage
promise. -/
inductive ResolveVia where
  | invalidPayload
  | localFallback
  | viaCallback
  | viaLastError
  | viaTimeout
  | viaCatch
  deriving Repr, DecidableEq

/-- Outcome of a promise-returning call: resolution with an optional value,
rejection, or a synchronous throw escaping to the caller.  safeSendMessage
is translated so that every source path is visible as a constructor
choice; the theorems show the last two constructors never occur. -/
inductive PromiseOutcome where
  | resolved (via : ResolveVia) (value : Option String)
  | rejected (err : String)
  | thrown (err : String)
  deriving Repr, DecidableEq

/-- The 2000 millisecond guard timer safeSendMessage arms around every
transmission. -/
def safeSendTimeoutMs : Nat := 2000

/-- safeSendMessage of the first recorder variant.  An invalid payload
resolves immediately.  Without a messaging runtime the message is appended
to the bounded localStorage backup log when localStorage is present and
does not throw, and the call resolves.  With a runtime, a synchronous throw
is caught and resolves, a callback with lastError resolves with no value, a
normal callback resolves with the response, and a callback that never
arrives resolves through the 2000 millisecond timer.  The backup log is
threaded alongside the outcome. -/
def safeSendMessage (env : BridgeEnv) (msg : JsMsg) (now : Int)
    (backup : List BackupEntry) : PromiseOutcome × List BackupEntry :=
  match msg with
  | .nullish => (.resolved .invalidPayload none, backup)
  | .primitiveTruthy => (.resolved .invalidPayload none, backup)
  | .obj label =>
      if !env.runtimeAvailable then
        let backup :=
          if env.localStorageAvailable && !env.localStorageThrows then
            backup ++ [{ payload := label, timestamp := now,
                         storedLocally := true }]
          else backup
        (.resolved .localFallback none, backup)
      else
        match env.send with
        | .throwsSync => (.resolved .viaCatch none, backup)
        | .callsBack true _ => (.resolved .viaLastError none, backup)
        | .callsBack false r => (.resolved .viaCallback r, backup)
        | .neverCallsBack => (.resolved .viaTimeout none, backup)

/-- Session state of the second recorder variant touched by its
recordEvent. -/
structure SessionV2 where
  isRecording : Bool
  events : List EventRecord
  deriving Repr, DecidableEq

/-- The channel behaviour the second variant sees for its bare
chrome.runtime.sendMessage call. -/
inductive V2Send where
  | callsBack (lastError : Bool)
  | throwsSync
  deriving Repr, DecidableEq

/-- Environment of one recordEvent call in the second variant: the channel
behaviour for the recordedEvent send and the resolved screenshot value
(dataUrl, or none for a null response, a missing field, or a lastError in
the screenshot callback). -/
structure RecordEnvV2 where
  send : V2Send
  screenshotResult : Option String
  deriving Repr, DecidableEq

/-- Result of the async recordEvent of the second variant: the session
after the call settles, and the rejection the async function ends in when
one of its reads throws (there is no guard and no try around the body). -/
structure RecResultV2 where
  state : SessionV2
  thrown : Option String
  deriving Repr, DecidableEq

/-- The screenshot trigger condition of the second variant: click-class
event types, or a button-like target (tag, role, type attribute, or a
button-like ancestor through closest). -/
def v2WantsScreenshot (ty : String) (e : Elem) : Bool :=
  ty == "click" || ty == "mousedown" || ty == "mouseup"
    || ty == "dblclick" || ty == "contextmenu" || ty == "auxclick"
    || elemTagLower e.data == "button"
    || getAttr e.data "role" == some "button"
    || getAttr e.data "type" == some "submit"
    || getAttr e.data "type" == some "button"
    || closestMatches e (fun d => elemTagLower d == "button")
    || closestMatches e (fun d => getAttr d "role" == some "button")
    || closestMatches e (fun d =>
        elemTagLower d == "input" && getAttr d "type" == some "submit")
    || closestMatches e (fun d =>
        elemTagLower d == "input" && getAttr d "type" == some "button")

/-- recordEvent of the second recorder variant.  No target guard and no
try: a missing target makes the first property read throw, and a
non-element target makes its isInteractiveElement call throw, so in both
cases the async function rejects with no record appended.  For a valid
element target the record is built (numeric timestamp, target descriptor
with the screenshot field), and then the crucial wiring of this variant:
the record is pushed onto the local buffer only inside the send callback
and only when chrome.runtime.lastError is clear, so a failed or dead send
loses the event locally as well. -/
def recordEventV2 (env : RecordEnvV2) (st : SessionV2) (occ : Occurrence)
    (now : Int) (pageUrl : String) : RecResultV2 :=
  if !st.isRecording then { state := st, thrown := none }
  else
    match occ.target with
    | none =>
        { state := st,
          thrown := some "TypeError: cannot read tagName of null" }
    | some n =>
        match isInteractiveElementV2 (some n) with
        | .error e => { state := st, thrown := some e }
        | .ok interactive =>
            match n with
            | DomNode.element e =>
                let record := EventRecord.dom2 occ.ty (TimeVal.num now) pageUrl
                  { tag := e.data.tagName,
                    id := elemId e.data,
                    className := e.data.className,
                    text := e.data.textContent,
                    value := e.data.value,
                    isInteractive := interactive,
                    bid := getStableBID (some (DomNode.element e)),
                    screenshot :=
                      if v2WantsScreenshot occ.ty e then env.screenshotResult
                      else none }
                match env.send with
                | .throwsSync =>
                    { state := st,
                      thrown := some "Error: extension context invalidated" }
                | .callsBack true => { state := st, thrown := none }
                | .callsBack false =>
                    { state := { st with events := st.events ++ [record] },
                      thrown := none }
            | _ => { state := st, thrown := some "TypeError: non-element" }

/-- One dispatch step of the first variant for the timestamp analysis: a
listener invocation calling recordEvent with the clock reading at which it
runs, or a navigation detection calling recordNavigationEvent. -/
inductive StepV1 where
  | occStep (occ : Occurrence) (now : Int)
  | navStep (fromUrl toUrl title referrer : String) (now : Int)
  deriving Repr, DecidableEq

/-- The clock reading of a step. -/
def StepV1.clock : StepV1 → Int
  | .occStep _ now => now
  | .navStep _ _ _ _ now => now

/-- Run a list of dispatch steps in order. -/
def runStepsV1 (st : SessionV1) (pageUrl : String) : List StepV1 → SessionV1
  | [] => st
  | .occStep occ now :: rest =>
      runStepsV1 (recordEventV1 st occ now pageUrl) pageUrl rest
  | .navStep fromUrl toUrl title referrer now :: rest =>
      runStepsV1 (recordNavigationEventV1 st fromUrl toUrl title referrer now).1
        pageUrl rest

/-- The numeric epoch-millisecond readings carried by the DOM records of a
buffer, in buffer order. -/
def domStamps (events : List EventRecord) : List Int :=
  events.filterMap (fun r =>
    match r with
    | .dom _ (TimeVal.num n) _ _ => some n
    | _ => none)

/-- Modelled from the spec: the Interactivity Classifier contract of
section 4.2, stated in the words of the spec and of claim C6: interactive
exactly when the tag is one of button, input, select, textarea, a, or the
role attribute is one of the eight listed roles, or an inline click handler
is attached, or the tabindex attribute is exactly the string 0; non-element
nodes are never interactive. -/
def specInteractive (node : Option DomNode) : Bool :=
  match node with
  | some (DomNode.element e) =>
      interactiveTags.contains (elemTagLower e.data)
        || (match getAttr e.data "role" with
            | some r => interactiveRoles.contains r
            | none => false)
        || e.data.onclick
        || getAttr e.data "tabindex" == some "0"
  | _ => false

/-- Modelled from the spec: the normalization claim C4 states, lower-casing
and replacing each maximal run of non-alphanumeric characters by one
dash. -/
def specNormalizeRuns (v : String) : String :=
  let step := fun (acc : String × Bool) (c : Char) =>
    if isLowerAlnum c then (acc.1.push c, false)
    else if acc.2 then acc
    else (acc.1.push '-', true)
  ((jsToLower v).data.foldl step ("", false)).1

/-- Whether an occurrence target is a valid element node, the condition the
guard of the first variant recordEvent tests. -/
def targetIsElement : Option DomNode → Bool
  | some (DomNode.element _) => true
  | _ => false

/-! Concrete fixtures used by the witnesses and counterexamples. -/

def plainDivFixture : Elem :=
  { data := { tagName := some "DIV", attrs := [], onclick := false,
              value := none, textContent := some "hello",
              className := some "", siblingIndex := 0 },
    ancestors := [] }

def buttonFixture : Elem :=
  { data := { tagName := some "BUTTON", attrs := [], onclick := false,
              value := none, textContent := some "OK",
              className := some "", siblingIndex := 0 },
    ancestors := [] }

def typeSubmitDivFixture : Elem :=
  { data := { tagName := some "DIV", attrs := [("type", "submit")],
              onclick := false, value := none, textContent := some "",
              className := some "", siblingIndex := 0 },
    ancestors := [] }

def testidRunsFixture : Elem :=
  { data := { tagName := some "DIV", attrs := [("data-testid", "a  b")],
              onclick := false, value := none, textContent := some "",
              className := some "", siblingIndex := 0 },
    ancestors := [] }

def divIdx (i : Int) : Elem :=
  { data := { tagName := some "DIV", attrs := [], onclick := false,
              value := none, textContent := some "",
              className := some "", siblingIndex := i },
    ancestors := [] }

def inputFixture (v : String) : Elem :=
  { data := { tagName := some "INPUT", attrs := [], onclick := false,
              value := some v, textContent := some "",
              className := some "", siblingIndex := 0 },
    ancestors := [] }

def scrollDivFixture : Elem :=
  { data := { tagName := some "DIV", attrs := [], onclick := false,
              value := none, textContent := some "",
              className := some "scroll-area", siblingIndex := 0 },
    ancestors := [] }

def recSession : SessionV1 :=
  { isRecording := true, events := [], filter := initFilterState }

def recSessionV2 : SessionV2 := { isRecording := true, events := [] }

def clickOcc (e : Elem) (t : Int) : Occurrence :=
  { ty := "click", target := some (DomNode.element e), deltaY := none,
    time := t }

def inputOcc (e : Elem) (t : Int) : Occurrence :=
  { ty := "input", target := some (DomNode.element e), deltaY := none,
    time := t }

def scrollOcc (e : Elem) (d : Int) (t : Int) : Occurrence :=
  { ty := "scroll", target := some (DomNode.element e), deltaY := some d,
    time := t }

/-- Ten scroll occurrences, five units of delta each, five milliseconds
apart: the burst of the C3 scenario. -/
def scrollBurst : List Occurrence :=
  (List.range 10).map (fun i => scrollOcc scrollDivFixture 5 (5 * (i : Int)))

/-! Theorems settling the claims. -/

/-- C9: the persistence-bridge send never throws and never rejects: every
call resolves; an invalid payload resolves immediately with the backup log
untouched; with no messaging runtime and a working localStorage the message
is appended to the local backup log and the call resolves; an unanswered
send resolves through the timeout path. -/
theorem safeSendMessage_always_resolves :
    (∀ (env : BridgeEnv) (msg : JsMsg) (now : Int)
        (backup : List BackupEntry),
      ∃ via v, (safeSendMessage env msg now backup).1 =
        PromiseOutcome.resolved via v)
    ∧ (∀ (env : BridgeEnv) (now : Int) (backup : List BackupEntry),
      safeSendMessage env JsMsg.nullish now backup =
        (PromiseOutcome.resolved ResolveVia.invalidPayload none, backup))
    ∧ (∀ (send : SendBehavior) (label : String) (now : Int)
        (backup : List BackupEntry),
      safeSendMessage
          { runtimeAvailable := false, localStorageAvailable := true,
            localStorageThrows := false, send := send }
          (JsMsg.obj label) now backup =
        (PromiseOutcome.resolved ResolveVia.localFallback none,
          backup ++ [{ payload := label, timestamp := now,
                       storedLocally := true }]))
    ∧ (∀ (lsa lst : Bool) (label : String) (now : Int)
        (backup : List BackupEntry),
      safeSendMessage
          { runtimeAvailable := true, localStorageAvailable := lsa,
            localStorageThrows := lst, send := SendBehavior.neverCallsBack }
          (JsMsg.obj label) now backup =
        (PromiseOutcome.resolved ResolveVia.viaTimeout none, backup)) := by
  refine ⟨?_, ?_, ?_, ?_⟩
  · intro env msg now backup
    obtain ⟨ra, lsa, lst, send⟩ := env
    cases msg with
    | nullish => exact ⟨_, _, rfl⟩
    | primitiveTruthy => exact ⟨_, _, rfl⟩
    | obj label =>
      cases ra with
      | false => exact ⟨_, _, rfl⟩
      | true => cases send with
        | callsBack le r => cases le <;> exact ⟨_, _, rfl⟩
        | neverCallsBack => exact ⟨_, _, rfl⟩
        | throwsSync => exact ⟨_, _, rfl⟩
  · intro env now backup; rfl
  · intro send label now backup; rfl
  · intro lsa lst label now backup; rfl

/-- Auxiliary: the role truthiness test of the first classifier collapses
to plain membership because the empty string is not an interactive
role. -/
theorem roleCheck_eq_membership (r? : Option String) :
    (match r? with
     | some r => r ≠ "" && interactiveRoles.contains r
     | none => false)
    = (match r? with
       | some r => interactiveRoles.contains r
       | none => false) := by
  cases r? with
  | none => rfl
  | some r =>
    by_cases h : r = ""
    · subst h; decide
    · simp [h]

/-- C6 counterexample: in the second recorder variant an element with a
type attribute of submit classifies as interactive although it satisfies
none of the conditions of the claim, and a non-element node makes the call
throw instead of returning false. -/
theorem typeSubmit_v2_counterexample :
    isInteractiveElementV2 (some (DomNode.element typeSubmitDivFixture)) =
      Except.ok true
    ∧ specInteractive (some (DomNode.element typeSubmitDivFixture)) = false
    ∧ (isInteractiveElementV2 (some DomNode.textNode)).isOk = false := by
  refine ⟨by rfl, by decide, by rfl⟩

/-- C6 (amended): the classifier of the first recorder variant agrees with
the stated characterization on every node, non-element nodes included; the
classifier of the second variant diverges: an element whose type attribute
is submit satisfies none of the stated conditions yet classifies as
interactive there, and a non-element node makes it throw instead of
returning false. -/
theorem isInteractiveElement_characterization :
    (∀ n : Option DomNode, isInteractiveElement n = specInteractive n)
    ∧ isInteractiveElementV2 (some (DomNode.element typeSubmitDivFixture)) =
        Except.ok true
    ∧ specInteractive (some (DomNode.element typeSubmitDivFixture)) = false
    ∧ (isInteractiveElementV2 (some DomNode.textNode)).isOk = false := by
  refine ⟨?_, by rfl, by decide, by rfl⟩
  intro n
  match n with
  | none => rfl
  | some DomNode.textNode => rfl
  | some DomNode.documentNode => rfl
  | some (DomNode.element e) =>
    simp only [isInteractiveElement, specInteractive, elemTagLower]
    rw [roleCheck_eq_membership]

@[simp] theorem data_mk (l : List Char) : (String.mk l).data = l := rfl

@[simp] theorem data_append (a b : String) :
    (a ++ b).data = a.data ++ b.data := by
  cases a; cases b; rfl

theorem normalizeBidTail_ne_empty (s : String) (h : s.data ≠ []) :
    normalizeBidTail s ≠ "" := by
  intro he
  apply h
  have hd : (normalizeBidTail s).data = ("" : String).data := by rw [he]
  simp only [normalizeBidTail, jsToLower, data_mk] at hd
  simpa using hd

/-- C4 counterexample: for an element whose data-testid value contains a
run of two non-alphanumeric characters, the computed Stable ID keeps one
dash per excluded character, so it differs from the run-collapsing
normalization the claim states. -/
theorem stableBID_run_normalization_counterexample :
    getStableBID (some (DomNode.element testidRunsFixture)) = "test-a--b"
    ∧ specNormalizeRuns "a  b" = "a-b"
    ∧ getStableBID (some (DomNode.element testidRunsFixture)) ≠
        "test-" ++ specNormalizeRuns "a  b" := by
  refine ⟨by rfl, by rfl, by decide⟩

/-- C4 (amended): the Stable ID tries the priority attributes in order,
returning on the first truthy value the prefix concatenated with the value
lower-cased and with each non-alphanumeric character (not each run)
replaced by a dash; for a non-empty data-testid the result is the test
prefix plus that normalization, and the computation is deterministic on
repeated calls. -/
theorem stableBID_attr_priority :
    (∀ (e : Elem) (v : String),
      getAttr e.data "data-testid" = some v → v ≠ "" →
      getStableBID (some (DomNode.element e)) = "test-" ++ normalizeAttrValue v)
    ∧ (∀ (e : Elem) (v : String),
      getAttr e.data "data-testid" = none →
      getAttr e.data "aria-label" = some v → v ≠ "" →
      getStableBID (some (DomNode.element e)) = "aria-" ++ normalizeAttrValue v)
    ∧ (∀ n : Option DomNode, getStableBID n = getStableBID n) := by
  refine ⟨?_, ?_, fun _ => rfl⟩
  · intro e v h hv
    simp [getStableBID, firstBidAttr, bidAttributePriority, List.findSome?, h, hv]
  · intro e v h0 h hv
    simp [getStableBID, firstBidAttr, bidAttributePriority, List.findSome?,
      h0, h, hv]

/-- C4 witness: the priority theorem applied to concrete elements. -/
theorem stableBID_attr_priority_witness :
    getStableBID (some (DomNode.element testidRunsFixture)) =
      "test-" ++ normalizeAttrValue "a  b" :=
  stableBID_attr_priority.1 testidRunsFixture "a  b" (by rfl) (by decide)

/-- C5 counterexample: two elements that differ only in the sibling index
(10000 against 10001) hash to 32-bit values whose base-36 expansions share
their first six characters, so the truncated hash and hence the whole
Stable ID coincide: changing only the sibling index does not always change
the ID. -/
theorem stableBID_sibling_collision :
    getStableBID (some (DomNode.element (divIdx 10000))) =
      getStableBID (some (DomNode.element (divIdx 10001)))
    ∧ (divIdx 10000).data.siblingIndex ≠ (divIdx 10001).data.siblingIndex := by
  refine ⟨by decide, by decide⟩

/-- C5 (amended): with no priority attribute matched, the hash-based Stable
ID is a function of tag, class list, text content and sibling index alone
(so two computations over identical inputs agree), it is never empty, and
changing only the sibling index changes the ID whenever the truncated
hashes differ, as at indices 0 and 1 of the fixture; it can fail to change
the ID when the truncated 32-bit hashes collide. -/
theorem stableBID_hash_determinism :
    (∀ (d1 d2 : ElemData) (a1 a2 : List ElemData),
      firstBidAttr d1 = none → firstBidAttr d2 = none →
      d1.tagName = d2.tagName → d1.className = d2.className →
      d1.textContent = d2.textContent → d1.siblingIndex = d2.siblingIndex →
      getStableBID (some (DomNode.element { data := d1, ancestors := a1 })) =
        getStableBID (some (DomNode.element { data := d2, ancestors := a2 })))
    ∧ (∀ (d : ElemData) (a : List ElemData), firstBidAttr d = none →
      getStableBID (some (DomNode.element { data := d, ancestors := a })) ≠ "")
    ∧ getStableBID (some (DomNode.element (divIdx 0))) ≠
        getStableBID (some (DomNode.element (divIdx 1))) := by
  refine ⟨?_, ?_, by decide⟩
  · intro d1 d2 a1 a2 h1 h2 htag hcl htx hsi
    simp only [getStableBID, h1, h2]
    rw [htag, hcl, htx, hsi]
  · intro d a h
    simp only [getStableBID, h]
    apply normalizeBidTail_ne_empty
    simp only [data_append]
    intro hnil
    rcases List.append_eq_nil.mp hnil with ⟨hnil2, -⟩
    rcases List.append_eq_nil.mp hnil2 with ⟨hnil3, -⟩
    rcases List.append_eq_nil.mp hnil3 with ⟨htagnil, -⟩
    revert htagnil
    match d.tagName with
    | none => decide
    | some t =>
      by_cases ht : t = ""
      · subst ht; decide
      · simp only [ht, if_true, ne_eq, not_false_eq_true, ite_true, jsToLower,
          data_mk, List.map_eq_nil_iff]
        intro hdata
        exact ht (by cases t with | mk l => simp_all)

/-- C5 witness: the determinism and non-emptiness parts applied to the
fixture with sibling index zero. -/
theorem stableBID_hash_determinism_witness :
    getStableBID (some (DomNode.element (divIdx 0))) =
      getStableBID (some (DomNode.element (divIdx 0)))
    ∧ getStableBID (some (DomNode.element (divIdx 0))) ≠ "" :=
  ⟨stableBID_hash_determinism.1 (divIdx 0).data (divIdx 0).data [] []
      (by rfl) (by rfl) rfl rfl rfl rfl,
    stableBID_hash_determinism.2.1 (divIdx 0).data [] (by rfl)⟩

theorem shouldIgnoreRest_clickState (st : FilterState) (el : DomNode)
    (cv : String) (d : Option Int) (ty : String) (t : Int) :
    ((shouldIgnoreRest st el cv d ty t).2).clickState = st.clickState := by
  unfold shouldIgnoreRest
  repeat' split <;> try rfl
  all_goals simp only []
  all_goals split <;> rfl

theorem kept_click_sets_memo (st : FilterState) (el : DomNode)
    (d : Option Int) (ty : String) (t : Int)
    (hty : ty = "click" ∨ ty = "mouseup")
    (hkept : (shouldIgnoreEvent st el d ty t).1 = false) :
    ((shouldIgnoreEvent st el d ty t).2).clickState.lastClickTime = t
    ∧ ((shouldIgnoreEvent st el d ty t).2).clickState.lastClickTarget
        = some el := by
  have hcls : (ty == "click" || ty == "mouseup") = true := by
    rcases hty with h | h <;> simp [h]
  by_cases hc :
      (decide (t - st.clickState.lastClickTime < 25)
        && (st.clickState.lastClickTarget == some el)) = true
  · exfalso
    simp only [shouldIgnoreEvent, hcls, if_true, hc] at hkept
    simp at hkept
  · by_cases hi : isInteractiveElement (some el) = true
    · simp only [shouldIgnoreEvent, hcls, if_true, hc, if_false, hi]
      simp [hc]
    · simp only [shouldIgnoreEvent, hcls, if_true, hc, if_false,
        Bool.not_eq_true] at hi ⊢
      simp [hc, hi, shouldIgnoreRest_clickState]

/-- C1 counterexample: during an active session two clicks ten
milliseconds apart on the same non-interactive target are both appended to
the buffer (the dispatch path never consults the filter, so nothing is
collapsed), and at the filter level two clicks ten milliseconds apart on
the same interactive button are not both kept: the second one is ignored,
so interactivity does not bypass the 25 millisecond suppression either. -/
theorem rapid_click_counterexample :
    (runImmediateV1 recSession "https://ex/"
        [clickOcc plainDivFixture 1000,
         clickOcc plainDivFixture 1010]).events.length = 2
    ∧ isInteractiveElement (some (DomNode.element plainDivFixture)) = false
    ∧ (shouldIgnoreEvent initFilterState (DomNode.element buttonFixture)
        none "click" 1000).1 = false
    ∧ (shouldIgnoreEvent
        (shouldIgnoreEvent initFilterState (DomNode.element buttonFixture)
          none "click" 1000).2
        (DomNode.element buttonFixture) none "click" 1010).1 = true
    ∧ isInteractiveElement (some (DomNode.element buttonFixture)) = true := by
  refine ⟨by decide, by decide, by decide, by decide, by decide⟩

/-- C1 (amended): the recording path of the first variant appends every
click-class occurrence, so two clicks on the same target during an active
session are both recorded regardless of spacing and interactivity (the
filter is never consulted); the filter function itself, had it been
consulted, drops the second click-class occurrence on the same target
within 25 milliseconds of a kept one even when the target is interactive,
because its 25 millisecond check precedes the interactivity bypass. -/
theorem click_suppression_behavior :
    (∀ (st : SessionV1) (url : String) (e : Elem) (t1 t2 : Int),
      st.isRecording = true →
      (runImmediateV1 st url [clickOcc e t1, clickOcc e t2]).events.length
        = st.events.length + 2)
    ∧ (∀ (st : FilterState) (el : DomNode) (d : Option Int) (ty : String)
        (t1 t2 : Int),
      (ty = "click" ∨ ty = "mouseup") →
      (shouldIgnoreEvent st el d ty t1).1 = false →
      t2 - t1 < 25 →
      (shouldIgnoreEvent (shouldIgnoreEvent st el d ty t1).2 el d ty t2).1
        = true) := by
  constructor
  · intro st url e t1 t2 h
    simp [runImmediateV1, dispatchImmediateV1, recordEventV1, clickOcc,
      rawRecordTypes, h]
  · intro st el d ty t1 t2 hty hkept hlt
    obtain ⟨htime, htarget⟩ := kept_click_sets_memo st el d ty t1 hty hkept
    have hcls : (ty == "click" || ty == "mouseup") = true := by
      rcases hty with h | h <;> simp [h]
    generalize hg : (shouldIgnoreEvent st el d ty t1).2 = st1 at htime htarget ⊢
    simp only [shouldIgnoreEvent, hcls, if_true, htime, htarget]
    simp [hlt]

/-- C1 witness: the amended behaviour at the concrete fixtures. -/
theorem click_suppression_behavior_witness :
    (runImmediateV1 recSession "https://ex/"
        [clickOcc buttonFixture 2000, clickOcc buttonFixture 2010]).events.length
      = recSession.events.length + 2
    ∧ (shouldIgnoreEvent
        (shouldIgnoreEvent initFilterState (DomNode.element buttonFixture)
          none "mouseup" 3000).2
        (DomNode.element buttonFixture) none "mouseup" 3010).1 = true :=
  ⟨click_suppression_behavior.1 recSession "https://ex/" buttonFixture
      2000 2010 (by rfl),
    click_suppression_behavior.2 initFilterState
      (DomNode.element buttonFixture) none "mouseup" 3000 3010
      (Or.inr rfl) (by decide) (by decide)⟩

/-- C2: evaluation at the failing input.  During an active session a second
input occurrence whose value is unchanged is still appended: the
module-scope input listener of the first variant routes every input
occurrence straight into recordEvent (first conjunct); the last recorded
input value memo is never written on the live path, because the only code
writing it is the never-called filter (second conjunct); and even the
debounced handler records the unchanged occurrence, since its comparison
runs against that stale null memo (third conjunct). -/
theorem unchanged_input_still_recorded :
    (runImmediateV1 recSession "https://ex/"
        [inputOcc (inputFixture "abc") 0,
         inputOcc (inputFixture "abc") 600]).events.length = 2
    ∧ (runImmediateV1 recSession "https://ex/"
        [inputOcc (inputFixture "abc") 0]).filter.lastEventData.lastInputValue
        = none
    ∧ (debouncedRecordInputFire
        (runImmediateV1 recSession "https://ex/"
          [inputOcc (inputFixture "abc") 0])
        (inputOcc (inputFixture "abc") 600) 1100 "https://ex/").events.length
        = 2 := by
  refine ⟨by decide, by decide, by decide⟩

/-- C3 counterexample: the burst of ten scroll occurrences of delta five
within fifty milliseconds yields exactly one kept scroll record, not zero:
the scroll path never consults the filter; the 100 millisecond debounce
collapses the burst to its last occurrence, which recordEvent appends. -/
theorem scroll_burst_counterexample :
    (runScrollV1 recSession "https://ex/" scrollBurst).events =
      [EventRecord.dom "scroll" (TimeVal.num 145) "https://ex/"
        (mkTargetInfoV1 scrollDivFixture)] := by
  decide

/-- C3 (amended): the filter function does drop every scroll occurrence
whose absolute delta is below fifty, but no dispatch path invokes it; the
scroll occurrences instead pass a 100 millisecond debounce into
recordEvent, so the ten-occurrence burst of the scenario yields one kept
scroll event rather than zero. -/
theorem scroll_threshold_behavior :
    (∀ (st : FilterState) (el : DomNode) (d : Int) (t : Int),
      d.natAbs < 50 →
      (shouldIgnoreEvent st el (some d) "scroll" t).1 = true)
    ∧ (runScrollV1 recSession "https://ex/" scrollBurst).events.length
        = 1 := by
  constructor
  · intro st el d t h
    simp [shouldIgnoreEvent, shouldIgnoreRest, h]
  · decide

/-- C3 witness: the filter-level drop at a concrete state and delta. -/
theorem scroll_threshold_behavior_witness :
    (shouldIgnoreEvent initFilterState (DomNode.element scrollDivFixture)
      (some 5) "scroll" 0).1 = true :=
  scroll_threshold_behavior.1 initFilterState
    (DomNode.element scrollDivFixture) 5 0 (by decide)

theorem domStamps_append (a b : List EventRecord) :
    domStamps (a ++ b) = domStamps a ++ domStamps b :=
  List.filterMap_append a b _

theorem recordEventV1_events (st : SessionV1) (occ : Occurrence) (now : Int)
    (url : String) :
    ∃ l, (recordEventV1 st occ now url).events = st.events ++ l
      ∧ List.Sublist (domStamps l) [now] := by
  unfold recordEventV1
  by_cases h : st.isRecording
  · simp only [h]
    match occ.target with
    | none => exact ⟨[], by simp, by simp [domStamps]⟩
    | some (DomNode.element e) =>
        exact ⟨[EventRecord.dom occ.ty (TimeVal.num now) url (mkTargetInfoV1 e)],
          by simp, by simp [domStamps]⟩
    | some DomNode.textNode => exact ⟨[], by simp, by simp [domStamps]⟩
    | some DomNode.documentNode => exact ⟨[], by simp, by simp [domStamps]⟩
  · simp only [Bool.not_eq_true] at h
    simp only [h]
    exact ⟨[], by simp, by simp [domStamps]⟩

theorem recordNavigationEventV1_events (st : SessionV1)
    (f u ti r : String) (now : Int) :
    ∃ l, (recordNavigationEventV1 st f u ti r now).1.events = st.events ++ l
      ∧ domStamps l = [] := by
  unfold recordNavigationEventV1
  by_cases h : st.isRecording
  · simp only [h]
    exact ⟨[EventRecord.nav "navigation" (TimeVal.str (formatTimestamp now))
        f u ti r (st.filter.clickState.clickCount > 0)],
      by simp, by simp [domStamps]⟩
  · simp only [Bool.not_eq_true] at h
    simp only [h]
    exact ⟨[], by simp, by simp [domStamps]⟩

theorem runStepsV1_events (steps : List StepV1) :
    ∀ (st : SessionV1) (url : String),
    ∃ l, (runStepsV1 st url steps).events = st.events ++ l
      ∧ List.Sublist (domStamps l) (steps.map StepV1.clock) := by
  induction steps with
  | nil => intro st url; exact ⟨[], by simp [runStepsV1], by simp [domStamps]⟩
  | cons s rest ih =>
    intro st url
    cases s with
    | occStep occ now =>
      obtain ⟨l0, h0, hs0⟩ := recordEventV1_events st occ now url
      obtain ⟨l1, h1, hs1⟩ := ih (recordEventV1 st occ now url) url
      refine ⟨l0 ++ l1, ?_, ?_⟩
      · simp [runStepsV1, h1, h0, List.append_assoc]
      · rw [domStamps_append]
        rcases List.sublist_singleton.mp hs0 with h | h
        · rw [h, List.nil_append]
          exact hs1.cons now
        · rw [h]
          exact hs1.cons₂ now
    | navStep f u ti r now =>
      obtain ⟨l0, h0, hs0⟩ := recordNavigationEventV1_events st f u ti r now
      obtain ⟨l1, h1, hs1⟩ :=
        ih (recordNavigationEventV1 st f u ti r now).1 url
      refine ⟨l0 ++ l1, ?_, ?_⟩
      · simp [runStepsV1, h1, h0, List.append_assoc]
      · rw [domStamps_append, hs0, List.nil_append]
        exact hs1.cons now

/-- C7 counterexample: the navigation record appended by the first variant
during an active session carries the formatTimestamp ISO-8601 string, not
an epoch-milliseconds value. -/
theorem navigation_timestamp_counterexample :
    ((recordNavigationEventV1 recSession "https://a/" "https://a/b" "T" ""
        1700000000123).1.events.map EventRecord.timestamp)
      = [TimeVal.str "2023-11-14T22:13:20.123Z"]
    ∧ TimeVal.isNum (TimeVal.str "2023-11-14T22:13:20.123Z") = false := by
  refine ⟨by decide, by rfl⟩

/-- C7 (amended): records appended by recordEvent carry the numeric
epoch-millisecond clock reading; navigation records instead carry the
ISO-8601 string formatTimestamp produces from the same clock; and along
any dispatch trace whose clock readings are non-decreasing, the numeric
timestamps of the appended DOM records are non-decreasing in append
order. -/
theorem timestamp_shapes_and_monotonicity :
    (∀ (st : SessionV1) (occ : Occurrence) (now : Int) (url : String),
      (recordEventV1 st occ now url).events = st.events
      ∨ ∃ tinfo, (recordEventV1 st occ now url).events
          = st.events ++ [EventRecord.dom occ.ty (TimeVal.num now) url tinfo])
    ∧ (∀ (st : SessionV1) (f u ti r : String) (now : Int),
      st.isRecording = true →
      (recordNavigationEventV1 st f u ti r now).1.events
        = st.events ++ [EventRecord.nav "navigation"
            (TimeVal.str (formatTimestamp now)) f u ti r
            (st.filter.clickState.clickCount > 0)])
    ∧ (∀ (steps : List StepV1) (url : String),
      List.Sorted (· ≤ ·) (steps.map StepV1.clock) →
      List.Sorted (· ≤ ·)
        (domStamps ((runStepsV1 recSession url steps).events))) := by
  refine ⟨?_, ?_, ?_⟩
  · intro st occ now url
    unfold recordEventV1
    by_cases h : st.isRecording
    · simp only [h]
      match occ.target with
      | none => simp
      | some (DomNode.element e) => exact Or.inr ⟨mkTargetInfoV1 e, by simp⟩
      | some DomNode.textNode => simp
      | some DomNode.documentNode => simp
    · simp only [Bool.not_eq_true] at h
      simp only [h]
      simp
  · intro st f u ti r now h
    unfold recordNavigationEventV1
    simp only [h]
    rfl
  · intro steps url hsorted
    obtain ⟨l, h, hs⟩ := runStepsV1_events steps recSession url
    rw [h]
    have : recSession.events = [] := rfl
    rw [this, List.nil_append]
    exact List.Pairwise.sublist hs hsorted

/-- C7 witness: the navigation shape and the monotonicity applied to a
concrete two-step trace. -/
theorem timestamp_shapes_and_monotonicity_witness :
    (recordNavigationEventV1 recSession "https://a/" "https://a/b" "T" ""
        5).1.events
      = recSession.events ++ [EventRecord.nav "navigation"
          (TimeVal.str (formatTimestamp 5)) "https://a/" "https://a/b" "T" ""
          (recSession.filter.clickState.clickCount > 0)]
    ∧ List.Sorted (· ≤ ·)
        (domStamps ((runStepsV1 recSession "https://ex/"
          [StepV1.occStep (clickOcc buttonFixture 10) 10,
           StepV1.navStep "https://a/" "https://a/b" "T" "" 20]).events)) :=
  ⟨timestamp_shapes_and_monotonicity.2.1 recSession "https://a/"
      "https://a/b" "T" "" 5 rfl,
    timestamp_shapes_and_monotonicity.2.2
      [StepV1.occStep (clickOcc buttonFixture 10) 10,
       StepV1.navStep "https://a/" "https://a/b" "T" "" 20]
      "https://ex/" (by decide)⟩

/-- C8 counterexample: in the second recorder variant an occurrence with a
missing target, and one with a text-node target, leave the buffer alone but
end in a thrown error (a rejected async call) instead of a clean discard. -/
theorem invalid_target_v2_counterexample :
    (recordEventV2 { send := V2Send.callsBack false, screenshotResult := none }
        recSessionV2 { ty := "click", target := none, deltaY := none, time := 0 }
        0 "https://ex/").thrown.isSome = true
    ∧ (recordEventV2 { send := V2Send.callsBack false, screenshotResult := none }
        recSessionV2
        { ty := "click", target := some DomNode.textNode, deltaY := none,
          time := 0 } 0 "https://ex/").thrown.isSome = true
    ∧ (recordEventV2 { send := V2Send.callsBack false, screenshotResult := none }
        recSessionV2 { ty := "click", target := none, deltaY := none, time := 0 }
        0 "https://ex/").state = recSessionV2 := by
  refine ⟨by rfl, by rfl, by rfl⟩

/-- C8 (amended): an occurrence with a missing or non-element target never
appends a record in either variant; the first variant discards it cleanly
(its guard returns with the session unchanged and nothing thrown), while
the second variant, which has no guard and no try, leaves the buffer
unchanged but aborts with a thrown error. -/
theorem invalid_target_discard :
    (∀ (st : SessionV1) (occ : Occurrence) (now : Int) (url : String),
      targetIsElement occ.target = false →
      recordEventV1 st occ now url = st)
    ∧ (∀ (env : RecordEnvV2) (st : SessionV2) (occ : Occurrence) (now : Int)
        (url : String),
      st.isRecording = true → targetIsElement occ.target = false →
      (recordEventV2 env st occ now url).state = st
      ∧ (recordEventV2 env st occ now url).thrown.isSome = true) := by
  constructor
  · intro st occ now url h
    unfold recordEventV1
    by_cases hr : st.isRecording
    · simp only [hr, Bool.not_true, Bool.false_eq_true, if_false]
      match hocc : occ.target with
      | none => rfl
      | some (DomNode.element e) => rw [hocc] at h; simp [targetIsElement] at h
      | some DomNode.textNode => rfl
      | some DomNode.documentNode => rfl
    · simp only [Bool.not_eq_true] at hr
      simp [hr]
  · intro env st occ now url hr h
    unfold recordEventV2
    simp only [hr, Bool.not_true, Bool.false_eq_true, if_false]
    match hocc : occ.target with
    | none => exact ⟨rfl, rfl⟩
    | some (DomNode.element e) => rw [hocc] at h; simp [targetIsElement] at h
    | some DomNode.textNode => exact ⟨rfl, rfl⟩
    | some DomNode.documentNode => exact ⟨rfl, rfl⟩

/-- C8 witness: the discard in the first variant and the erroring
non-append in the second, at concrete invalid-target occurrences. -/
theorem invalid_target_discard_witness :
    recordEventV1 recSession
        { ty := "click", target := some DomNode.documentNode, deltaY := none,
          time := 7 } 7 "https://ex/" = recSession
    ∧ (recordEventV2 { send := V2Send.throwsSync, screenshotResult := none }
        recSessionV2
        { ty := "input", target := none, deltaY := none, time := 9 } 9
        "https://ex/").state = recSessionV2 :=
  ⟨invalid_target_discard.1 recSession
      { ty := "click", target := some DomNode.documentNode, deltaY := none,
        time := 7 } 7 "https://ex/" (by rfl),
    (invalid_target_discard.2
      { send := V2Send.throwsSync, screenshotResult := none } recSessionV2
      { ty := "input", target := none, deltaY := none, time := 9 } 9
      "https://ex/" rfl (by rfl)).1⟩

/-- C10: in the second recorder variant the normalized record reaches the
local buffer only when the recordedEvent send calls back without a runtime
error; a send that calls back with lastError set, or a send that throws
because the channel is gone, leaves the local buffer unchanged too, so a
delivery failure loses the event locally as well as durably. -/
theorem v2_buffer_tracks_send :
    ∀ (sc : Option String) (st : SessionV2) (e : Elem) (tg : String)
      (ty : String) (d : Option Int) (t now : Int) (url : String),
    st.isRecording = true → e.data.tagName = some tg →
    ((recordEventV2 { send := V2Send.callsBack false, screenshotResult := sc }
        st { ty := ty, target := some (DomNode.element e), deltaY := d,
             time := t } now url).state.events.length
      = st.events.length + 1
    ∧ (recordEventV2 { send := V2Send.callsBack false, screenshotResult := sc }
        st { ty := ty, target := some (DomNode.element e), deltaY := d,
             time := t } now url).thrown = none)
    ∧ ((recordEventV2 { send := V2Send.callsBack true, screenshotResult := sc }
        st { ty := ty, target := some (DomNode.element e), deltaY := d,
             time := t } now url).state = st
    ∧ (recordEventV2 { send := V2Send.callsBack true, screenshotResult := sc }
        st { ty := ty, target := some (DomNode.element e), deltaY := d,
             time := t } now url).thrown = none)
    ∧ (recordEventV2 { send := V2Send.throwsSync, screenshotResult := sc }
        st { ty := ty, target := some (DomNode.element e), deltaY := d,
             time := t } now url).state = st := by
  intro sc st e tg ty d t now url hr htag
  unfold recordEventV2
  simp only [hr, Bool.not_true, Bool.false_eq_true, if_false]
  simp [isInteractiveElementV2, htag]

/-- C10 witness: the send-tracking behaviour at a concrete element and
session. -/
theorem v2_buffer_tracks_send_witness :
    (recordEventV2 { send := V2Send.callsBack false, screenshotResult := none }
        recSessionV2
        { ty := "click", target := some (DomNode.element buttonFixture),
          deltaY := none, time := 0 } 0 "https://ex/").state.events.length
      = recSessionV2.events.length + 1
    ∧ (recordEventV2 { send := V2Send.callsBack true, screenshotResult := none }
        recSessionV2
        { ty := "click", target := some (DomNode.element buttonFixture),
          deltaY := none, time := 0 } 0 "https://ex/").state = recSessionV2 :=
  ⟨(v2_buffer_tracks_send none recSessionV2 buttonFixture "BUTTON" "click"
      none 0 0 "https://ex/" rfl rfl).1.1,
    (v2_buffer_tracks_send none recSessionV2 buttonFixture "BUTTON" "click"
      none 0 0 "https://ex/" rfl rfl).2.1.1⟩

end EventCapture
